import Mathlib

/-!
Verification of the Tangerine-Reporting CSV column-header derivation engine
(`createColumnHeaders` and its per-prototype generator helpers).

The JavaScript source is embedded shallowly:

* promises that can reject become `Except DbErr`;
* the external CouchDB access layer (`dbQuery`) becomes an explicit record of
  query functions (`Store`);
* the mutable `subtestCounts` record threaded through the subtest loop becomes
  explicit state passing;
* JavaScript truthiness tests on possibly-absent string fields are modelled by
  `jsTruthy` over `Option String`.
-/

/-- Errors with which a database query promise can reject.  The engine never
inspects them, it only propagates them, so a plain string stands for the
rejection value. -/
abbrev DbErr := String

/-- One CSV column: the human readable title and the dotted lookup key
(the `{header, key}` objects the JavaScript pushes). -/
structure ColumnDescriptor where
  header : String
  key : String
deriving DecidableEq

/-- The mutable `subtestCounts` object initialised at the top of the subtest
loop of `createColumnHeaders`. -/
structure SubtestCounts where
  locationCount : Nat
  datetimeCount : Nat
  idCount : Nat
  consentCount : Nat
  gpsCount : Nat
  cameraCount : Nat
  surveyCount : Nat
  gridCount : Nat
  timestampCount : Nat
deriving DecidableEq

/-- The assessment document loaded by `dbQuery.retrieveDoc(docId, dbUrl)`.
Only its `assessmentId` field is read; the field may be absent
(JavaScript `undefined`), which `none` models. -/
structure AssessmentDoc where
  assessmentId : Option String := none
deriving DecidableEq

/-- A subtest document as consumed by the generators: the `prototype`
discriminator plus every field any generator reads. -/
structure Subtest where
  prototype : String
  _id : String := ""
  levels : List String := []
  subtestId : String := ""
  variableName : String := ""
  assessmentId : Option String := none
  curriculumId : Option String := none
deriving DecidableEq

/-- A survey question document returned by
`dbQuery.getQuestionBySubtestId`.  Only the number of options matters to the
generator, never their contents. -/
structure Question where
  name : String
  order : Int
  options : List String
deriving DecidableEq

/-- One item of a grid entry's `data.items`. -/
structure GridItem where
  itemLabel : String
deriving DecidableEq

/-- The `data` payload of a grid subtest-data entry. -/
structure GridData where
  variable_name : Option String := none
  items : List GridItem := []
deriving DecidableEq

/-- One entry of a result document's `subtestData` array. -/
structure GridEntry where
  prototype : String
  name : String := ""
  subtestId : String := ""
  data : GridData := {}
deriving DecidableEq

/-- The inner `doc` of a row returned by `dbQuery.getResults`. -/
structure ResultBody where
  subtestData : List GridEntry := []
deriving DecidableEq

/-- One row returned by `dbQuery.getResults`; the grid generator reads
`item.doc.subtestData`. -/
structure ResultRow where
  doc : ResultBody
deriving DecidableEq

/-- The external document store (the `dbQuery` module specialised to one
`dbUrl`): every query the engine performs, each able to reject. -/
structure Store where
  retrieveDoc : String → Except DbErr AssessmentDoc
  getSubtests : String → Except DbErr (List Subtest)
  getQuestionBySubtestId : String → Except DbErr (List Question)
  getResults : Option String → Except DbErr (List ResultRow)

instance {ε α : Type} [DecidableEq ε] [DecidableEq α] : DecidableEq (Except ε α) := fun a b =>
  match a, b with
  | .error e₁, .error e₂ =>
    if h : e₁ = e₂ then isTrue (by rw [h]) else isFalse (by intro hh; cases hh; exact h rfl)
  | .ok v₁, .ok v₂ =>
    if h : v₁ = v₂ then isTrue (by rw [h]) else isFalse (by intro hh; cases hh; exact h rfl)
  | .error _, .ok _ => isFalse (by intro hh; cases hh)
  | .ok _, .error _ => isFalse (by intro hh; cases hh)

/-- JavaScript truthiness of a possibly-absent string field: absent
(`undefined`) and the empty string are falsy. -/
def jsTruthy : Option String → Bool
  | none => false
  | some s => !s.isEmpty

/-- JavaScript `a || b` on two possibly-absent string fields: the first
operand when truthy, otherwise the second. -/
def jsOrOpt (a b : Option String) : Option String :=
  if jsTruthy a then a else b

/-- JavaScript `toLowerCase`, modelled character by character over the
string's character list (extensionally `String.toLower`, but written so that
it evaluates by kernel reduction). -/
def jsToLower (s : String) : String :=
  String.mk (s.data.map Char.toLower)

/-- The ubiquitous suffix computation `count > 0 ? `_${count}` : ''`. -/
def countSuffix (count : Nat) : String :=
  if count > 0 then "_" ++ toString count else ""

/-- The timestamp column every generator appends:
`{ header: `timestamp_${n}`, key: `${owner}.timestamp_${n}` }` where `n` is
the current `subtestCounts.timestampCount`. -/
def tsCol (owner : String) (n : Nat) : ColumnDescriptor :=
  ⟨"timestamp_" ++ toString n, owner ++ ".timestamp_" ++ toString n⟩

/-- The all-zero `subtestCounts` object built at the top of the subtest
loop. -/
def initialCounts : SubtestCounts :=
  ⟨0, 0, 0, 0, 0, 0, 0, 0, 0⟩

/-- Source function `createLocation`: one column per entry of `doc.levels`, suffixed from
`locationCount`, then the timestamp column. -/
def createLocation (doc : Subtest) (subtestCounts : SubtestCounts) : List ColumnDescriptor :=
  let count := subtestCounts.locationCount
  (doc.levels.map fun label =>
    ⟨label ++ countSuffix count, doc._id ++ "." ++ jsToLower label ++ countSuffix count⟩)
    ++ [tsCol doc._id subtestCounts.timestampCount]

/-- Source function `createDatetime`: the four fixed date columns suffixed from
`datetimeCount`, then the timestamp column. -/
def createDatetime (doc : Subtest) (subtestCounts : SubtestCounts) : List ColumnDescriptor :=
  let suffix := countSuffix subtestCounts.datetimeCount
  [⟨"year" ++ suffix, doc._id ++ ".year" ++ suffix⟩,
   ⟨"month" ++ suffix, doc._id ++ ".month" ++ suffix⟩,
   ⟨"day" ++ suffix, doc._id ++ ".day" ++ suffix⟩,
   ⟨"assess_time" ++ suffix, doc._id ++ ".assess_time" ++ suffix⟩]
  ++ [tsCol doc._id subtestCounts.timestampCount]

/-- Source function `createConsent`: one `consent` column suffixed from `consentCount`, then
the timestamp column. -/
def createConsent (doc : Subtest) (subtestCounts : SubtestCounts) : List ColumnDescriptor :=
  let suffix := countSuffix subtestCounts.consentCount
  [⟨"consent" ++ suffix, doc._id ++ ".consent" ++ suffix⟩]
  ++ [tsCol doc._id subtestCounts.timestampCount]

/-- Source function `createId`: one `id` column suffixed from `idCount`, then the timestamp
column. -/
def createId (doc : Subtest) (subtestCounts : SubtestCounts) : List ColumnDescriptor :=
  let suffix := countSuffix subtestCounts.idCount
  [⟨"id" ++ suffix, doc._id ++ ".id" ++ suffix⟩]
  ++ [tsCol doc._id subtestCounts.timestampCount]

/-- The sort `_.sortBy(questions, [id, 'order'])` of `createSurvey`.  The
first iteratee is the subtest id used as a property path; question documents
have no property named after a subtest id, so that key is `undefined` on
every question and the stable lodash sort orders by `order` alone, keeping
the store's order for equal `order` values.  A stable ascending
insertion sort by `order` realises exactly that. -/
def sortQuestions (questions : List Question) : List Question :=
  List.insertionSort (fun a b => a.order ≤ b.order) questions

/-- The per-question column block of `createSurvey`: one column when the
question has at most two options, otherwise one column per option index
`1..optionsLen` with the three-segment key `id.name.index`. -/
def surveyQuestionCols (id suffix : String) (doc : Question) : List ColumnDescriptor :=
  if doc.options.length ≤ 2 then
    [⟨doc.name ++ suffix, id ++ "." ++ doc.name ++ suffix⟩]
  else
    (List.range' 1 doc.options.length).map fun i =>
      ⟨doc.name ++ "_" ++ toString i ++ suffix,
       id ++ "." ++ doc.name ++ "." ++ toString i ++ suffix⟩

/-- Source function `createSurvey`: fetch the subtest's questions, sort them, emit each
question's block suffixed from `surveyCount`, then the timestamp column. -/
def createSurvey (id : String) (subtestCounts : SubtestCounts) (store : Store) :
    Except DbErr (List ColumnDescriptor) :=
  match store.getQuestionBySubtestId id with
  | .error e => .error e
  | .ok questions =>
    let sortedDoc := sortQuestions questions
    .ok ((sortedDoc.flatMap (surveyQuestionCols id (countSuffix subtestCounts.surveyCount)))
      ++ [tsCol id subtestCounts.timestampCount])

/-- The grid generator's fallback variable name
`sub.name.toLowerCase().replace(/\s/g, '_')`: lower-case the display name and
turn every whitespace character into an underscore. -/
def lowerUnderscoreName (s : String) : String :=
  String.mk ((jsToLower s).data.map fun c => if c.isWhitespace then '_' else c)

/-- The grid generator's `variableName`:
`sub.data.variable_name || sub.name.toLowerCase().replace(/\s/g, '_')`. -/
def gridVariableName (sub : GridEntry) : String :=
  match sub.data.variable_name with
  | some v => if !v.isEmpty then v else lowerUnderscoreName sub.name
  | none => lowerUnderscoreName sub.name

/-- The block `createGrid` pushes for one grid-data entry: the six fixed
columns, one column per item, then the timestamp column; `count` is the
loop-local occurrence counter and `ts` the current `timestampCount`. -/
def gridEntryBlock (sub : GridEntry) (count ts : Nat) : List ColumnDescriptor :=
  let suffix := countSuffix count
  let variableName := gridVariableName sub
  ([⟨variableName ++ "_auto_stop" ++ suffix,
    sub.subtestId ++ "." ++ variableName ++ "_auto_stop" ++ suffix⟩,
   ⟨variableName ++ "_time_remain" ++ suffix,
    sub.subtestId ++ "." ++ variableName ++ "_time_remain" ++ suffix⟩,
   ⟨variableName ++ "_capture_item_at_time" ++ suffix,
    sub.subtestId ++ "." ++ variableName ++ "_capture_item_at_time" ++ suffix⟩,
   ⟨variableName ++ "_attempted" ++ suffix,
    sub.subtestId ++ "." ++ variableName ++ "_attempted" ++ suffix⟩,
   ⟨variableName ++ "_time_intermediate_captured" ++ suffix,
    sub.subtestId ++ "." ++ variableName ++ "_time_intermediate_captured" ++ suffix⟩,
   ⟨variableName ++ "_time_allowed" ++ suffix,
    sub.subtestId ++ "." ++ variableName ++ "_time_allowed" ++ suffix⟩]
   ++ (sub.data.items.map fun item =>
      ⟨variableName ++ "_" ++ item.itemLabel ++ suffix,
       sub.subtestId ++ "." ++ variableName ++ "_" ++ item.itemLabel ++ suffix⟩))
  ++ [tsCol sub.subtestId ts]

/-- The `for (sub of gridData)` loop of `createGrid`: per entry one block,
the local occurrence counter and the shared `timestampCount` each advancing
by one; returns the accumulated columns and the final `timestampCount`. -/
def createGridAux : List GridEntry → Nat → Nat → List ColumnDescriptor × Nat
  | [], _, ts => ([], ts)
  | sub :: rest, count, ts =>
    let block := gridEntryBlock sub count ts
    let tail := createGridAux rest (count + 1) (ts + 1)
    (block ++ tail.1, tail.2)

/-- Source function `createGrid`: fetch every historical result document for
`doc.assessmentId || doc.curriculumId`, keep the `subtestData` entries whose
prototype is `grid` in returned order, and run the block loop over them
starting from `gridCount` and the current `timestampCount`. -/
def createGrid (doc : Subtest) (subtestCounts : SubtestCounts) (store : Store) :
    Except DbErr (List ColumnDescriptor × Nat) :=
  match store.getResults (jsOrOpt doc.assessmentId doc.curriculumId) with
  | .error e => .error e
  | .ok resultDocs =>
    let gridData := resultDocs.flatMap fun item =>
      item.doc.subtestData.filter fun value => value.prototype == "grid"
    .ok (createGridAux gridData subtestCounts.gridCount subtestCounts.timestampCount)

/-- Source function `createGps`: the seven fixed gps columns suffixed from `gpsCount`, then
the timestamp column. -/
def createGps (doc : Subtest) (subtestCounts : SubtestCounts) : List ColumnDescriptor :=
  let suffix := countSuffix subtestCounts.gpsCount
  [⟨"latitude" ++ suffix, doc._id ++ ".latitude" ++ suffix⟩,
   ⟨"longitude" ++ suffix, doc._id ++ ".longitude" ++ suffix⟩,
   ⟨"accuracy" ++ suffix, doc._id ++ ".accuracy" ++ suffix⟩,
   ⟨"altitude" ++ suffix, doc._id ++ ".altitude" ++ suffix⟩,
   ⟨"altitudeAccuracy" ++ suffix, doc._id ++ ".altitudeAccuracy" ++ suffix⟩,
   ⟨"heading" ++ suffix, doc._id ++ ".heading" ++ suffix⟩,
   ⟨"speed" ++ suffix, doc._id ++ ".speed" ++ suffix⟩]
  ++ [tsCol doc._id subtestCounts.timestampCount]

/-- Source function `createCamera`: the two photo columns suffixed from `cameraCount`, keyed
under `doc.subtestId`, then the timestamp column. -/
def createCamera (doc : Subtest) (subtestCounts : SubtestCounts) : List ColumnDescriptor :=
  let varName := doc.variableName
  let suffix := countSuffix subtestCounts.cameraCount
  [⟨varName ++ "_photo_captured" ++ suffix,
    doc.subtestId ++ "." ++ varName ++ "_photo_captured" ++ suffix⟩,
   ⟨varName ++ "_photo_url" ++ suffix,
    doc.subtestId ++ "." ++ varName ++ "_photo_url" ++ suffix⟩]
  ++ [tsCol doc.subtestId subtestCounts.timestampCount]

/-- The body of `createColumnHeaders`' `for (data of subtestData)` loop for
one subtest: dispatch on `prototype` (the guards being mutually exclusive
string comparisons, the source's sequence of `if`s is an if-else chain),
append the generated columns and update the counters; unrecognised
prototypes leave the state untouched. -/
def processSubtest (store : Store) (st : List ColumnDescriptor × SubtestCounts)
    (data : Subtest) : Except DbErr (List ColumnDescriptor × SubtestCounts) :=
  let assessments := st.1
  let c := st.2
  if data.prototype == "location" then
    .ok (assessments ++ createLocation data c,
      { c with locationCount := c.locationCount + 1, timestampCount := c.timestampCount + 1 })
  else if data.prototype == "datetime" then
    .ok (assessments ++ createDatetime data c,
      { c with datetimeCount := c.datetimeCount + 1, timestampCount := c.timestampCount + 1 })
  else if data.prototype == "consent" then
    .ok (assessments ++ createConsent data c,
      { c with consentCount := c.consentCount + 1, timestampCount := c.timestampCount + 1 })
  else if data.prototype == "id" then
    .ok (assessments ++ createId data c,
      { c with idCount := c.idCount + 1, timestampCount := c.timestampCount + 1 })
  else if data.prototype == "survey" then
    match createSurvey data._id c store with
    | .error e => .error e
    | .ok surveys =>
      .ok (assessments ++ surveys,
        { c with surveyCount := c.surveyCount + 1, timestampCount := c.timestampCount + 1 })
  else if data.prototype == "grid" && c.gridCount == 0 then
    match createGrid data c store with
    | .error e => .error e
    | .ok grid =>
      .ok (assessments ++ grid.1,
        { c with gridCount := c.gridCount + 1, timestampCount := grid.2 })
  else if data.prototype == "gps" then
    .ok (assessments ++ createGps data c,
      { c with gpsCount := c.gpsCount + 1, timestampCount := c.timestampCount + 1 })
  else if data.prototype == "camera" then
    .ok (assessments ++ createCamera data c,
      { c with cameraCount := c.cameraCount + 1, timestampCount := c.timestampCount + 1 })
  else
    .ok (assessments, c)

/-- The whole subtest loop: process the subtests in list order, stopping at
the first rejection (the promise chain awaits each asynchronous generator
before the next subtest). -/
def processSubtests (store : Store) :
    List Subtest → List ColumnDescriptor × SubtestCounts →
    Except DbErr (List ColumnDescriptor × SubtestCounts)
  | [], st => .ok st
  | data :: rest, st =>
    match processSubtest store st data with
    | .error e => .error e
    | .ok st' => processSubtests store rest st'

/-- The five leading assessment columns pushed when the loaded document's
`assessmentId` is truthy. -/
def leadingColumns (item : AssessmentDoc) (count : Nat) : List ColumnDescriptor :=
  let aid := match item.assessmentId with
    | some s => s
    | none => ""
  let assessmentSuffix := countSuffix count
  [⟨"assessment_id" ++ assessmentSuffix, aid ++ ".assessmentId" ++ assessmentSuffix⟩,
   ⟨"assessment_name" ++ assessmentSuffix, aid ++ ".assessmentName" ++ assessmentSuffix⟩,
   ⟨"enumerator" ++ assessmentSuffix, aid ++ ".enumerator" ++ assessmentSuffix⟩,
   ⟨"start_time" ++ assessmentSuffix, aid ++ ".start_time" ++ assessmentSuffix⟩,
   ⟨"order_map" ++ assessmentSuffix, aid ++ ".order_map" ++ assessmentSuffix⟩]

/-- Source function `createColumnHeaders(docId, count, dbUrl)`: load the assessment document,
push the leading block when its `assessmentId` is truthy, fold the subtest
loop over the document's subtests, then append the trailing `end_time`
column keyed under the caller-supplied `docId`; any rejection along the
promise chain propagates unchanged. -/
def createColumnHeaders (docId : String) (count : Nat) (store : Store) :
    Except DbErr (List ColumnDescriptor) :=
  match store.retrieveDoc docId with
  | .error e => .error e
  | .ok item =>
    let assessments := if jsTruthy item.assessmentId then leadingColumns item count else []
    match store.getSubtests docId with
    | .error e => .error e
    | .ok subtestData =>
      match processSubtests store subtestData (assessments, initialCounts) with
      | .error e => .error e
      | .ok st =>
        let assessmentSuffix := countSuffix count
        .ok (st.1 ++ [⟨"end_time" ++ assessmentSuffix,
          docId ++ ".end_time" ++ assessmentSuffix⟩])

/-- A column sequence consisting of consecutive synthesized-timestamp blocks:
`Stamped ts cols ns` holds when `cols` splits into blocks, each ending in the
timestamp column the generators push, the first numbered `ts` and every later
one numbered one higher, with `ns` the emitted numbers in order. -/
inductive Stamped : Nat → List ColumnDescriptor → List Nat → Prop where
  | nil (ts : Nat) : Stamped ts [] []
  | block (ts : Nat) (body : List ColumnDescriptor) (owner : String)
      (rest : List ColumnDescriptor) (ns : List Nat) :
      Stamped (ts + 1) rest ns →
      Stamped ts (body ++ tsCol owner ts :: rest) (ts :: ns)

/-- A store holding one assessment `a1` whose single subtest is the gps
subtest `s1`: the end-to-end scenario of the specification. -/
def scenarioStore : Store where
  retrieveDoc := fun id =>
    if id == "a1" then .ok { assessmentId := some ("a1") } else .error ("not_found")
  getSubtests := fun id =>
    if id == "a1" then .ok [{ prototype := "gps", _id := "s1" }] else .error ("not_found")
  getQuestionBySubtestId := fun _ => .error ("not_found")
  getResults := fun _ => .error ("not_found")

/-- A store whose assessment document `a2` carries an `assessmentId` field
holding the empty string (present but falsy), with an empty subtest list. -/
def emptyIdStore : Store where
  retrieveDoc := fun id =>
    if id == "a2" then .ok { assessmentId := some ("") } else .error ("not_found")
  getSubtests := fun id =>
    if id == "a2" then .ok [] else .error ("not_found")
  getQuestionBySubtestId := fun _ => .error ("not_found")
  getResults := fun _ => .error ("not_found")

/-- The same store as `emptyIdStore` except that document `a2` lacks the
`assessmentId` field entirely. -/
def noIdStore : Store where
  retrieveDoc := fun id =>
    if id == "a2" then .ok { assessmentId := none } else .error ("not_found")
  getSubtests := fun id =>
    if id == "a2" then .ok [] else .error ("not_found")
  getQuestionBySubtestId := fun _ => .error ("not_found")
  getResults := fun _ => .error ("not_found")

/-- A store whose every query rejects, modelling an unreachable database. -/
def failStore : Store where
  retrieveDoc := fun _ => .error ("db_down")
  getSubtests := fun _ => .error ("db_down")
  getQuestionBySubtestId := fun _ => .error ("db_down")
  getResults := fun _ => .error ("db_down")

/-- A store holding two survey questions for subtest `s2`, returned in
descending `order` so that sorting visibly reorders them. -/
def surveyStore : Store where
  retrieveDoc := fun _ => .error ("not_found")
  getSubtests := fun _ => .error ("not_found")
  getQuestionBySubtestId := fun id =>
    if id == "s2" then
      .ok [{ name := "late", order := 2, options := [] },
           { name := "early", order := 1, options := [] }]
    else .error ("not_found")
  getResults := fun _ => .error ("not_found")

/-- A store holding one historical result for assessment `g1` whose
`subtestData` contains two grid entries and one non-grid entry. -/
def gridStore : Store where
  retrieveDoc := fun _ => .error ("not_found")
  getSubtests := fun _ => .error ("not_found")
  getQuestionBySubtestId := fun _ => .error ("not_found")
  getResults := fun id =>
    if id == some ("g1") then
      .ok [⟨⟨[{ prototype := "grid", name := "Letter Grid", subtestId := "sub1",
                data := { variable_name := some ("lg"), items := [⟨"a"⟩] } },
              { prototype := "survey", subtestId := "sub2" },
              { prototype := "grid", name := "Word Grid", subtestId := "sub3",
                data := { variable_name := none, items := [] } }]⟩⟩]
    else .error ("not_found")

/-- Concatenating two stamped column sequences whose numbering lines up
yields a stamped sequence. -/
theorem Stamped.append : ∀ {ts : Nat} {xs : List ColumnDescriptor} {ns : List Nat}
    {ys : List ColumnDescriptor} {ms : List Nat},
    Stamped ts xs ns → Stamped (ts + ns.length) ys ms → Stamped ts (xs ++ ys) (ns ++ ms) := by
  intro ts xs ns ys ms h₁
  induction h₁ generalizing ys ms with
  | nil ts =>
    intro h₂
    simpa using h₂
  | block ts body owner rest ns hrest ih =>
    intro h₂
    rw [show ts + List.length (ts :: ns) = ts + 1 + ns.length by simp; omega] at h₂
    have hr := ih h₂
    have hb := Stamped.block ts body owner (rest ++ ys) (ns ++ ms) hr
    simpa [List.append_assoc] using hb

/-- The numbers a stamped sequence emits are consecutive, starting at its
first timestamp value. -/
theorem Stamped.numbers : ∀ {ts : Nat} {xs : List ColumnDescriptor} {ns : List Nat},
    Stamped ts xs ns → ns = List.range' ts ns.length := by
  intro ts xs ns h
  induction h with
  | nil ts => rfl
  | block ts body owner rest ns hrest ih =>
    show ts :: ns = List.range' ts (ts :: ns).length
    rw [List.length_cons, List.range'_succ]
    exact congrArg (ts :: ·) ih

/-- A single generator block, a body followed by one synthesized timestamp
column, is a stamped sequence emitting exactly that number. -/
theorem Stamped.single (body : List ColumnDescriptor) (owner : String) (ts : Nat) :
    Stamped ts (body ++ [tsCol owner ts]) [ts] :=
  Stamped.block ts body owner [] [] (Stamped.nil (ts + 1))

/-- Prepending one generator block to a stamped tail whose numbering starts
one higher yields a stamped sequence. -/
theorem Stamped.cons_block (body : List ColumnDescriptor) (owner : String) (ts : Nat)
    (tail : List ColumnDescriptor) (ns : List Nat) (h : Stamped (ts + 1) tail ns) :
    Stamped ts ((body ++ [tsCol owner ts]) ++ tail) (ts :: ns) := by
  rw [List.append_assoc, List.singleton_append]
  exact Stamped.block ts body owner tail ns h

/-- The grid loop emits one timestamp per grid-data entry, numbered
consecutively from the initial counter, and returns the counter advanced by
the number of entries. -/
theorem createGridAux_stamped : ∀ (entries : List GridEntry) (count ts : Nat),
    ∃ ns, Stamped ts (createGridAux entries count ts).1 ns ∧
      (createGridAux entries count ts).2 = ts + ns.length ∧
      ns.length = entries.length := by
  intro entries
  induction entries with
  | nil =>
    intro count ts
    exact ⟨[], Stamped.nil ts, by simp [createGridAux], rfl⟩
  | cons sub rest ih =>
    intro count ts
    obtain ⟨ns, hst, hts, hlen⟩ := ih (count + 1) (ts + 1)
    refine ⟨ts :: ns, ?_, ?_, by simp [hlen]⟩
    · show Stamped ts (gridEntryBlock sub count ts ++ (createGridAux rest (count + 1) (ts + 1)).1) _
      simp only [gridEntryBlock]
      exact Stamped.cons_block _ sub.subtestId ts _ ns hst
    · show (createGridAux rest (count + 1) (ts + 1)).2 = _
      rw [hts]
      simp
      omega

/-- One iteration of the subtest loop appends a stamped column block and
advances `timestampCount` by exactly the number of timestamp columns it
emitted. -/
theorem processSubtest_emits : ∀ (store : Store) (cols : List ColumnDescriptor)
    (c : SubtestCounts) (data : Subtest) (cols' : List ColumnDescriptor) (c' : SubtestCounts),
    processSubtest store (cols, c) data = .ok (cols', c') →
    ∃ ex ns, cols' = cols ++ ex ∧ Stamped c.timestampCount ex ns ∧
      c'.timestampCount = c.timestampCount + ns.length := by
  intro store cols c data cols' c' h
  unfold processSubtest at h
  dsimp only at h
  split at h
  · injection h with h'
    injection h' with h₁ h₂
    subst h₁
    subst h₂
    refine ⟨createLocation data c, [c.timestampCount], rfl, ?_, by simp⟩
    simp only [createLocation]
    exact Stamped.single _ _ _
  split at h
  · injection h with h'
    injection h' with h₁ h₂
    subst h₁
    subst h₂
    refine ⟨createDatetime data c, [c.timestampCount], rfl, ?_, by simp⟩
    simp only [createDatetime]
    exact Stamped.single _ _ _
  split at h
  · injection h with h'
    injection h' with h₁ h₂
    subst h₁
    subst h₂
    refine ⟨createConsent data c, [c.timestampCount], rfl, ?_, by simp⟩
    simp only [createConsent]
    exact Stamped.single _ _ _
  split at h
  · injection h with h'
    injection h' with h₁ h₂
    subst h₁
    subst h₂
    refine ⟨createId data c, [c.timestampCount], rfl, ?_, by simp⟩
    simp only [createId]
    exact Stamped.single _ _ _
  split at h
  · split at h
    · simp at h
    next surveys hs =>
      unfold createSurvey at hs
      split at hs
      · simp at hs
      next questions hq =>
        injection hs with hs'
        subst hs'
        injection h with h'
        injection h' with h₁ h₂
        subst h₁
        subst h₂
        refine ⟨_, [c.timestampCount], rfl, Stamped.single _ _ _, by simp⟩
  split at h
  · split at h
    · simp at h
    next grid hg =>
      unfold createGrid at hg
      split at hg
      · simp at hg
      next resultDocs hres =>
        injection hg with hg'
        subst hg'
        injection h with h'
        injection h' with h₁ h₂
        subst h₁
        subst h₂
        obtain ⟨ns, hst, hts, _⟩ :=
          createGridAux_stamped
            (resultDocs.flatMap fun item =>
              item.doc.subtestData.filter fun value => value.prototype == "grid")
            c.gridCount c.timestampCount
        refine ⟨_, ns, rfl, hst, ?_⟩
        simpa using hts
  split at h
  · injection h with h'
    injection h' with h₁ h₂
    subst h₁
    subst h₂
    refine ⟨createGps data c, [c.timestampCount], rfl, ?_, by simp⟩
    simp only [createGps]
    exact Stamped.single _ _ _
  split at h
  · injection h with h'
    injection h' with h₁ h₂
    subst h₁
    subst h₂
    refine ⟨createCamera data c, [c.timestampCount], rfl, ?_, by simp⟩
    simp only [createCamera]
    exact Stamped.single _ _ _
  · injection h with h'
    injection h' with h₁ h₂
    subst h₁
    subst h₂
    exact ⟨[], [], by simp, Stamped.nil _, by simp⟩

/-- The whole subtest loop appends a stamped column sequence whose numbers
start at the incoming `timestampCount`, and leaves the counter advanced by
exactly the number of emitted timestamp columns. -/
theorem processSubtests_stamped : ∀ (store : Store) (subtests : List Subtest)
    (cols₀ : List ColumnDescriptor) (counts₀ : SubtestCounts)
    (cols₁ : List ColumnDescriptor) (counts₁ : SubtestCounts),
    processSubtests store subtests (cols₀, counts₀) = .ok (cols₁, counts₁) →
    ∃ emitted ns, cols₁ = cols₀ ++ emitted ∧
      Stamped counts₀.timestampCount emitted ns ∧
      counts₁.timestampCount = counts₀.timestampCount + ns.length := by
  intro store subtests
  induction subtests with
  | nil =>
    intro cols₀ counts₀ cols₁ counts₁ h
    injection h with h'
    injection h' with h₁ h₂
    subst h₁
    subst h₂
    exact ⟨[], [], by simp, Stamped.nil _, by simp⟩
  | cons data rest ih =>
    intro cols₀ counts₀ cols₁ counts₁ h
    unfold processSubtests at h
    split at h
    · simp at h
    next st' hstep =>
      obtain ⟨colsM, cM⟩ := st'
      obtain ⟨ex₁, ns₁, he₁, hs₁, ht₁⟩ :=
        processSubtest_emits store cols₀ counts₀ data colsM cM hstep
      obtain ⟨ex₂, ns₂, he₂, hs₂, ht₂⟩ := ih colsM cM cols₁ counts₁ h
      refine ⟨ex₁ ++ ex₂, ns₁ ++ ns₂, ?_, ?_, ?_⟩
      · rw [he₂, he₁, List.append_assoc]
      · refine Stamped.append hs₁ ?_
        rw [← ht₁]
        exact hs₂
      · rw [ht₂, ht₁]
        simp
        omega

/-- C1: every synthesized timestamp column is numbered with the
`timestampCount` value current just before the counter's increment; the
counter grows by exactly one per emitted timestamp column across the whole
subtest loop, and inside `createGrid` by one per grid-data entry; hence the
emitted numbers are the consecutive sequence starting at the initial counter
and no two timestamp columns of one run share a number. -/
theorem timestamp_numbering_c1 :
    (∀ (store : Store) (subtests : List Subtest) (cols₀ : List ColumnDescriptor)
       (counts₀ : SubtestCounts) (cols₁ : List ColumnDescriptor) (counts₁ : SubtestCounts),
       processSubtests store subtests (cols₀, counts₀) = .ok (cols₁, counts₁) →
       ∃ emitted ns, cols₁ = cols₀ ++ emitted ∧
         Stamped counts₀.timestampCount emitted ns ∧
         counts₁.timestampCount = counts₀.timestampCount + ns.length ∧
         ns = List.range' counts₀.timestampCount ns.length ∧
         ns.Nodup)
    ∧ (∀ (doc : Subtest) (c : SubtestCounts) (store : Store) (resultDocs : List ResultRow)
         (colsG : List ColumnDescriptor) (ts' : Nat),
         store.getResults (jsOrOpt doc.assessmentId doc.curriculumId) = .ok resultDocs →
         createGrid doc c store = .ok (colsG, ts') →
         ∃ ns, Stamped c.timestampCount colsG ns ∧
           ts' = c.timestampCount + ns.length ∧
           ns.length = (resultDocs.flatMap fun item =>
             item.doc.subtestData.filter fun value => value.prototype == "grid").length) := by
  constructor
  · intro store subtests cols₀ counts₀ cols₁ counts₁ h
    obtain ⟨emitted, ns, he, hs, ht⟩ :=
      processSubtests_stamped store subtests cols₀ counts₀ cols₁ counts₁ h
    have hr := Stamped.numbers hs
    refine ⟨emitted, ns, he, hs, ht, hr, ?_⟩
    rw [hr]
    exact List.nodup_range' _ _
  · intro doc c store resultDocs colsG ts' hres hg
    unfold createGrid at hg
    split at hg
    next e heq =>
      rw [hres] at heq
      simp at heq
    next rd heq =>
      rw [hres] at heq
      injection heq with heq'
      subst heq'
      injection hg with hg'
      obtain ⟨ns, hst, hts, hlen⟩ :=
        createGridAux_stamped
          (resultDocs.flatMap fun item =>
            item.doc.subtestData.filter fun value => value.prototype == "grid")
          c.gridCount c.timestampCount
      refine ⟨ns, ?_, ?_, hlen⟩
      · rw [hg'] at hst
        simpa using hst
      · rw [hg'] at hts
        simpa using hts

theorem timestamp_numbering_c1_witness :
    ∃ emitted ns,
      ([⟨"latitude", "s1.latitude"⟩, ⟨"longitude", "s1.longitude"⟩,
        ⟨"accuracy", "s1.accuracy"⟩, ⟨"altitude", "s1.altitude"⟩,
        ⟨"altitudeAccuracy", "s1.altitudeAccuracy"⟩, ⟨"heading", "s1.heading"⟩,
        ⟨"speed", "s1.speed"⟩, ⟨"timestamp_0", "s1.timestamp_0"⟩] : List ColumnDescriptor)
        = [] ++ emitted ∧
      Stamped initialCounts.timestampCount emitted ns ∧
      (⟨0, 0, 0, 0, 1, 0, 0, 0, 1⟩ : SubtestCounts).timestampCount
        = initialCounts.timestampCount + ns.length ∧
      ns = List.range' initialCounts.timestampCount ns.length ∧
      ns.Nodup :=
  timestamp_numbering_c1.1 scenarioStore [{ prototype := "gps", _id := "s1" }] [] initialCounts
    [⟨"latitude", "s1.latitude"⟩, ⟨"longitude", "s1.longitude"⟩,
     ⟨"accuracy", "s1.accuracy"⟩, ⟨"altitude", "s1.altitude"⟩,
     ⟨"altitudeAccuracy", "s1.altitudeAccuracy"⟩, ⟨"heading", "s1.heading"⟩,
     ⟨"speed", "s1.speed"⟩, ⟨"timestamp_0", "s1.timestamp_0"⟩]
    ⟨0, 0, 0, 0, 1, 0, 0, 0, 1⟩ (by rfl)

/-- C2: for assessment `a1` with the single gps subtest `s1` and `count = 0`,
the output is exactly the five assessment columns, the seven gps columns,
`timestamp_0` keyed `s1.timestamp_0`, and `end_time` keyed `a1.end_time`,
all unsuffixed and in this order. -/
theorem gps_scenario_count0_c2 :
    createColumnHeaders ("a1") 0 scenarioStore = .ok
      [⟨"assessment_id", "a1.assessmentId"⟩, ⟨"assessment_name", "a1.assessmentName"⟩,
       ⟨"enumerator", "a1.enumerator"⟩, ⟨"start_time", "a1.start_time"⟩,
       ⟨"order_map", "a1.order_map"⟩,
       ⟨"latitude", "s1.latitude"⟩, ⟨"longitude", "s1.longitude"⟩,
       ⟨"accuracy", "s1.accuracy"⟩, ⟨"altitude", "s1.altitude"⟩,
       ⟨"altitudeAccuracy", "s1.altitudeAccuracy"⟩, ⟨"heading", "s1.heading"⟩,
       ⟨"speed", "s1.speed"⟩,
       ⟨"timestamp_0", "s1.timestamp_0"⟩, ⟨"end_time", "a1.end_time"⟩] := by
  rfl

/-- C3 counterexample: in the same scenario with `count = 2` the gps columns
carry no `_2` suffix even though they are not timestamp columns, because
their suffix comes from the per-prototype `gpsCount` (still 0) and not from
the assessment-level `count`; the claim that every non-timestamp header and
key carries `_2` is therefore false on this run. -/
theorem gps_scenario_count2_c3_counterexample :
    createColumnHeaders ("a1") 2 scenarioStore = .ok
      [⟨"assessment_id_2", "a1.assessmentId_2"⟩, ⟨"assessment_name_2", "a1.assessmentName_2"⟩,
       ⟨"enumerator_2", "a1.enumerator_2"⟩, ⟨"start_time_2", "a1.start_time_2"⟩,
       ⟨"order_map_2", "a1.order_map_2"⟩,
       ⟨"latitude", "s1.latitude"⟩, ⟨"longitude", "s1.longitude"⟩,
       ⟨"accuracy", "s1.accuracy"⟩, ⟨"altitude", "s1.altitude"⟩,
       ⟨"altitudeAccuracy", "s1.altitudeAccuracy"⟩, ⟨"heading", "s1.heading"⟩,
       ⟨"speed", "s1.speed"⟩,
       ⟨"timestamp_0", "s1.timestamp_0"⟩, ⟨"end_time_2", "a1.end_time_2"⟩]
    ∧ (("_2").data.isSuffixOf ("latitude").data) = false
    ∧ (("_2").data.isSuffixOf ("s1.latitude").data) = false
    ∧ (("timestamp_").data.isPrefixOf ("latitude").data) = false := by
  refine ⟨by rfl, by decide, by decide, by decide⟩

/-- C3 amended: with `count = 2` the five assessment columns and the
trailing `end_time` column carry the `_2` suffix, while the gps columns are
unsuffixed (the gps occurrence counter starts at 0) and the timestamp column
is the unsuffixed `timestamp_0`. -/
theorem gps_scenario_count2_c3_amended :
    createColumnHeaders ("a1") 2 scenarioStore = .ok
      [⟨"assessment_id_2", "a1.assessmentId_2"⟩, ⟨"assessment_name_2", "a1.assessmentName_2"⟩,
       ⟨"enumerator_2", "a1.enumerator_2"⟩, ⟨"start_time_2", "a1.start_time_2"⟩,
       ⟨"order_map_2", "a1.order_map_2"⟩,
       ⟨"latitude", "s1.latitude"⟩, ⟨"longitude", "s1.longitude"⟩,
       ⟨"accuracy", "s1.accuracy"⟩, ⟨"altitude", "s1.altitude"⟩,
       ⟨"altitudeAccuracy", "s1.altitudeAccuracy"⟩, ⟨"heading", "s1.heading"⟩,
       ⟨"speed", "s1.speed"⟩,
       ⟨"timestamp_0", "s1.timestamp_0"⟩, ⟨"end_time_2", "a1.end_time_2"⟩] := by
  rfl

/-- C7 counterexample: the assessment document of `emptyIdStore` has an
`assessmentId` field (holding the empty string), yet the generated output
contains no leading five-column block, only the trailing `end_time` column;
presence of the field alone does not produce the block. -/
theorem leading_block_c7_counterexample :
    emptyIdStore.retrieveDoc ("a2") = .ok { assessmentId := some ("") }
    ∧ ({ assessmentId := some ("") } : AssessmentDoc).assessmentId ≠ none
    ∧ createColumnHeaders ("a2") 0 emptyIdStore = .ok [⟨"end_time", "a2.end_time"⟩] := by
  refine ⟨by rfl, by decide, by rfl⟩

/-- The loop body only appends to the accumulated columns: running it from
an accumulator `a` equals running it from the empty accumulator and
prepending `a` to the resulting columns. -/
theorem processSubtest_shift : ∀ (store : Store) (a : List ColumnDescriptor)
    (c : SubtestCounts) (data : Subtest),
    processSubtest store (a, c) data
      = (processSubtest store ([], c) data).map fun st => (a ++ st.1, st.2) := by
  intro store a c data
  unfold processSubtest
  dsimp only
  split
  · simp [Except.map]
  split
  · simp [Except.map]
  split
  · simp [Except.map]
  split
  · simp [Except.map]
  split
  · cases hs : createSurvey data._id c store <;> simp [hs, Except.map]
  split
  · cases hg : createGrid data c store <;> simp [hg, Except.map]
  split
  · simp [Except.map]
  split
  · simp [Except.map]
  · simp [Except.map]

/-- The whole subtest loop only appends to the accumulated columns: its
emission is independent of the incoming accumulator, which is merely
prepended to the result. -/
theorem processSubtests_shift : ∀ (store : Store) (l : List Subtest)
    (a : List ColumnDescriptor) (c : SubtestCounts),
    processSubtests store l (a, c)
      = (processSubtests store l ([], c)).map fun st => (a ++ st.1, st.2) := by
  intro store l
  induction l with
  | nil =>
    intro a c
    simp [processSubtests, Except.map]
  | cons data rest ih =>
    intro a c
    unfold processSubtests
    rw [processSubtest_shift]
    cases hstep : processSubtest store ([], c) data with
    | error e => simp [Except.map]
    | ok stM =>
      simp only [Except.map]
      obtain ⟨colsM, cM⟩ := stM
      rw [ih (a ++ colsM) cM, ih colsM cM]
      cases hq : processSubtests store rest ([], cM) <;>
        simp [Except.map, List.append_assoc]

/-- C7 amended: the output is exactly the leading block — present if and
only if the loaded document's `assessmentId` is truthy (present and
non-empty), absent otherwise — followed by the subtest loop's emission from
an empty accumulator and the trailing `end_time` column; an absent or empty
`assessmentId` thus skips the block entirely and without error. -/
theorem leading_block_c7_amended : ∀ (store : Store) (docId : String) (count : Nat)
    (item : AssessmentDoc) (cols : List ColumnDescriptor),
    store.retrieveDoc docId = .ok item →
    createColumnHeaders docId count store = .ok cols →
    (∃ subtestData stF,
      store.getSubtests docId = .ok subtestData ∧
      processSubtests store subtestData ([], initialCounts) = .ok stF ∧
      cols = (if jsTruthy item.assessmentId then leadingColumns item count else [])
        ++ stF.1
        ++ [⟨"end_time" ++ countSuffix count, docId ++ ".end_time" ++ countSuffix count⟩])
    ∧ jsTruthy (some ("")) = false ∧ jsTruthy none = false := by
  intro store docId count item cols hdoc h
  refine ⟨?_, by rfl, by rfl⟩
  unfold createColumnHeaders at h
  rw [hdoc] at h
  dsimp only at h
  split at h
  · simp at h
  next subtestData hsub =>
    split at h
    · simp at h
    next st hps =>
      injection h with h'
      subst h'
      rw [processSubtests_shift] at hps
      cases hq : processSubtests store subtestData ([], initialCounts) with
      | error e =>
        rw [hq] at hps
        simp [Except.map] at hps
      | ok stF =>
        rw [hq] at hps
        simp only [Except.map] at hps
        injection hps with hps'
        subst hps'
        exact ⟨subtestData, stF, hsub, hq, rfl⟩

theorem leading_block_c7_amended_witness :
    (∃ subtestData stF,
      scenarioStore.getSubtests ("a1") = .ok subtestData ∧
      processSubtests scenarioStore subtestData ([], initialCounts) = .ok stF ∧
      ([⟨"assessment_id", "a1.assessmentId"⟩, ⟨"assessment_name", "a1.assessmentName"⟩,
        ⟨"enumerator", "a1.enumerator"⟩, ⟨"start_time", "a1.start_time"⟩,
        ⟨"order_map", "a1.order_map"⟩,
        ⟨"latitude", "s1.latitude"⟩, ⟨"longitude", "s1.longitude"⟩,
        ⟨"accuracy", "s1.accuracy"⟩, ⟨"altitude", "s1.altitude"⟩,
        ⟨"altitudeAccuracy", "s1.altitudeAccuracy"⟩, ⟨"heading", "s1.heading"⟩,
        ⟨"speed", "s1.speed"⟩,
        ⟨"timestamp_0", "s1.timestamp_0"⟩, ⟨"end_time", "a1.end_time"⟩] : List ColumnDescriptor)
        = (if jsTruthy ({ assessmentId := some ("a1") } : AssessmentDoc).assessmentId
           then leadingColumns { assessmentId := some ("a1") } 0 else [])
          ++ stF.1
          ++ [⟨"end_time" ++ countSuffix 0, ("a1") ++ ".end_time" ++ countSuffix 0⟩])
    ∧ jsTruthy (some ("")) = false ∧ jsTruthy none = false :=
  leading_block_c7_amended scenarioStore ("a1") 0 { assessmentId := some ("a1") }
    [⟨"assessment_id", "a1.assessmentId"⟩, ⟨"assessment_name", "a1.assessmentName"⟩,
     ⟨"enumerator", "a1.enumerator"⟩, ⟨"start_time", "a1.start_time"⟩,
     ⟨"order_map", "a1.order_map"⟩,
     ⟨"latitude", "s1.latitude"⟩, ⟨"longitude", "s1.longitude"⟩,
     ⟨"accuracy", "s1.accuracy"⟩, ⟨"altitude", "s1.altitude"⟩,
     ⟨"altitudeAccuracy", "s1.altitudeAccuracy"⟩, ⟨"heading", "s1.heading"⟩,
     ⟨"speed", "s1.speed"⟩,
     ⟨"timestamp_0", "s1.timestamp_0"⟩, ⟨"end_time", "a1.end_time"⟩] (by rfl) (by rfl)

/-- The survey generator reads the store only through
`getQuestionBySubtestId`. -/
theorem createSurvey_store_congr (s₁ s₂ : Store)
    (hq : s₁.getQuestionBySubtestId = s₂.getQuestionBySubtestId)
    (id : String) (c : SubtestCounts) :
    createSurvey id c s₁ = createSurvey id c s₂ := by
  unfold createSurvey
  rw [hq]

/-- The grid generator reads the store only through `getResults`. -/
theorem createGrid_store_congr (s₁ s₂ : Store)
    (hr : s₁.getResults = s₂.getResults)
    (doc : Subtest) (c : SubtestCounts) :
    createGrid doc c s₁ = createGrid doc c s₂ := by
  unfold createGrid
  rw [hr]

/-- One loop iteration reads the store only through the survey and grid
queries. -/
theorem processSubtest_store_congr (s₁ s₂ : Store)
    (hq : s₁.getQuestionBySubtestId = s₂.getQuestionBySubtestId)
    (hr : s₁.getResults = s₂.getResults)
    (st : List ColumnDescriptor × SubtestCounts) (data : Subtest) :
    processSubtest s₁ st data = processSubtest s₂ st data := by
  unfold processSubtest
  dsimp only
  rw [createSurvey_store_congr s₁ s₂ hq, createGrid_store_congr s₁ s₂ hr]

/-- The whole subtest loop reads the store only through the survey and grid
queries. -/
theorem processSubtests_store_congr (s₁ s₂ : Store)
    (hq : s₁.getQuestionBySubtestId = s₂.getQuestionBySubtestId)
    (hr : s₁.getResults = s₂.getResults) :
    processSubtests s₁ = processSubtests s₂ := by
  funext l
  induction l with
  | nil => funext st; rfl
  | cons data rest ih =>
    funext st
    unfold processSubtests
    rw [processSubtest_store_congr s₁ s₂ hq hr st data]
    cases h : processSubtest s₂ st data with
    | error e => rfl
    | ok st' =>
      show processSubtests s₁ rest st' = processSubtests s₂ rest st'
      rw [ih]

/-- C10: the leading-block guard is JavaScript truthiness, not field
presence: a document whose `assessmentId` is present but empty behaves
exactly like one lacking the field, for identical stores otherwise. -/
theorem falsy_assessment_id_c10 : ∀ (s₁ s₂ : Store) (docId : String) (count : Nat),
    s₁.getSubtests = s₂.getSubtests →
    s₁.getQuestionBySubtestId = s₂.getQuestionBySubtestId →
    s₁.getResults = s₂.getResults →
    s₁.retrieveDoc docId = .ok { assessmentId := some ("") } →
    s₂.retrieveDoc docId = .ok { assessmentId := none } →
    createColumnHeaders docId count s₁ = createColumnHeaders docId count s₂ := by
  intro s₁ s₂ docId count hs hq hr h₁ h₂
  unfold createColumnHeaders
  rw [h₁, h₂, hs, processSubtests_store_congr s₁ s₂ hq hr]
  rfl

theorem falsy_assessment_id_c10_witness :
    createColumnHeaders ("a2") 0 emptyIdStore = createColumnHeaders ("a2") 0 noIdStore :=
  falsy_assessment_id_c10 emptyIdStore noIdStore ("a2") 0 rfl rfl rfl (by rfl) (by rfl)

/-- C8: a rejection of the assessment-document lookup, of the subtest-list
lookup, or of any generator's store lookup propagates out of
`createColumnHeaders` unchanged, and never a truncated column sequence. -/
theorem error_propagation_c8 : ∀ (store : Store) (docId : String) (count : Nat) (e : DbErr),
    (store.retrieveDoc docId = .error e → createColumnHeaders docId count store = .error e)
    ∧ (∀ item, store.retrieveDoc docId = .ok item → store.getSubtests docId = .error e →
        createColumnHeaders docId count store = .error e)
    ∧ (∀ item subtestData, store.retrieveDoc docId = .ok item →
        store.getSubtests docId = .ok subtestData →
        processSubtests store subtestData
          ((if jsTruthy item.assessmentId then leadingColumns item count else []), initialCounts)
          = .error e →
        createColumnHeaders docId count store = .error e)
    ∧ (∀ (id : String) (c : SubtestCounts), store.getQuestionBySubtestId id = .error e →
        createSurvey id c store = .error e)
    ∧ (∀ (doc : Subtest) (c : SubtestCounts),
        store.getResults (jsOrOpt doc.assessmentId doc.curriculumId) = .error e →
        createGrid doc c store = .error e)
    ∧ (∀ (data : Subtest) (st : List ColumnDescriptor × SubtestCounts),
        data.prototype = "survey" → createSurvey data._id st.2 store = .error e →
        processSubtest store st data = .error e)
    ∧ (∀ (data : Subtest) (st : List ColumnDescriptor × SubtestCounts),
        data.prototype = "grid" → st.2.gridCount = 0 →
        createGrid data st.2 store = .error e →
        processSubtest store st data = .error e)
    ∧ (∀ (data : Subtest) (rest : List Subtest) (st : List ColumnDescriptor × SubtestCounts),
        processSubtest store st data = .error e →
        processSubtests store (data :: rest) st = .error e) := by
  intro store docId count e
  refine ⟨?_, ?_, ?_, ?_, ?_, ?_, ?_, ?_⟩
  · intro h
    unfold createColumnHeaders
    rw [h]
  · intro item h₁ h₂
    unfold createColumnHeaders
    rw [h₁]
    dsimp only
    rw [h₂]
  · intro item subtestData h₁ h₂ h₃
    unfold createColumnHeaders
    rw [h₁]
    dsimp only
    rw [h₂]
    dsimp only
    rw [h₃]
  · intro id c h
    unfold createSurvey
    rw [h]
  · intro doc c h
    unfold createGrid
    rw [h]
  · intro data st hp hsv
    obtain ⟨cols, c⟩ := st
    unfold processSubtest
    dsimp only
    rw [hp]
    dsimp only at hsv
    simp [hsv]
  · intro data st hp hg hgr
    obtain ⟨cols, c⟩ := st
    unfold processSubtest
    dsimp only
    rw [hp]
    dsimp only at hg hgr
    simp [hg, hgr]
  · intro data rest st hstep
    unfold processSubtests
    rw [hstep]

theorem error_propagation_c8_witness :
    createColumnHeaders ("a1") 0 failStore = .error ("db_down") :=
  (error_propagation_c8 failStore ("a1") 0 ("db_down")).1 (by rfl)

/-- C9: for a survey question with more than two options and a positive
survey occurrence count, the occurrence suffix lands after the option index:
the header is `name_index_count` and the key is the three-segment
`subtestId.name.index_count`, the suffix attaching to the final index
segment. -/
theorem survey_option_suffix_c9 : ∀ (id : String) (q : Question) (c : Nat),
    2 < q.options.length → 0 < c →
    surveyQuestionCols id (countSuffix c) q =
      (List.range' 1 q.options.length).map fun i =>
        ⟨q.name ++ "_" ++ toString i ++ "_" ++ toString c,
         id ++ "." ++ q.name ++ "." ++ toString i ++ "_" ++ toString c⟩ := by
  intro id q c hlen hc
  unfold surveyQuestionCols
  rw [if_neg (by omega)]
  unfold countSuffix
  rw [if_pos hc]
  simp [String.append_assoc]

theorem survey_option_suffix_c9_witness :
    surveyQuestionCols ("s1") (countSuffix 1) ⟨"q", 0, ["a", "b", "c"]⟩ =
      [⟨"q_1_1", "s1.q.1_1"⟩, ⟨"q_2_1", "s1.q.2_1"⟩, ⟨"q_3_1", "s1.q.3_1"⟩] := by
  have h := survey_option_suffix_c9 ("s1") ⟨"q", 0, ["a", "b", "c"]⟩ 1 (by decide) (by decide)
  rw [h]
  rfl

/-- No branch of the subtest loop body ever decreases `gridCount`. -/
theorem processSubtest_gridCount_mono : ∀ (store : Store)
    (st : List ColumnDescriptor × SubtestCounts) (data : Subtest)
    (st' : List ColumnDescriptor × SubtestCounts),
    processSubtest store st data = .ok st' → st.2.gridCount ≤ st'.2.gridCount := by
  intro store st data st' h
  obtain ⟨cols, c⟩ := st
  obtain ⟨cols', c'⟩ := st'
  unfold processSubtest at h
  dsimp only at h
  split at h
  · injection h with h'
    injection h' with h₁ h₂
    subst h₂
    simp
  split at h
  · injection h with h'
    injection h' with h₁ h₂
    subst h₂
    simp
  split at h
  · injection h with h'
    injection h' with h₁ h₂
    subst h₂
    simp
  split at h
  · injection h with h'
    injection h' with h₁ h₂
    subst h₂
    simp
  split at h
  · split at h
    · simp at h
    next surveys hs =>
      injection h with h'
      injection h' with h₁ h₂
      subst h₂
      simp
  split at h
  · split at h
    · simp at h
    next grid hg =>
      injection h with h'
      injection h' with h₁ h₂
      subst h₂
      simp
  split at h
  · injection h with h'
    injection h' with h₁ h₂
    subst h₂
    simp
  split at h
  · injection h with h'
    injection h' with h₁ h₂
    subst h₂
    simp
  · injection h with h'
    injection h' with h₁ h₂
    subst h₂
    simp

/-- Across any run of the subtest loop, `gridCount` never decreases; in
particular once it is positive it stays positive. -/
theorem processSubtests_gridCount_mono : ∀ (store : Store) (l : List Subtest)
    (st₀ st₁ : List ColumnDescriptor × SubtestCounts),
    processSubtests store l st₀ = .ok st₁ → st₀.2.gridCount ≤ st₁.2.gridCount := by
  intro store l
  induction l with
  | nil =>
    intro st₀ st₁ h
    injection h with h'
    subst h'
    exact Nat.le_refl _
  | cons data rest ih =>
    intro st₀ st₁ h
    unfold processSubtests at h
    split at h
    · simp at h
    next stM hstep =>
      exact Nat.le_trans (processSubtest_gridCount_mono store st₀ data stM hstep) (ih stM st₁ h)

/-- C6: a grid subtest is dispatched only while `gridCount` is still zero:
when `gridCount` is non-zero a grid subtest leaves the accumulated columns
and every counter untouched; the first grid subtest (dispatched with
`gridCount = 0`) sets `gridCount` to 1; and no step of the loop, nor any run
of the loop, ever decreases `gridCount` — so after the first grid subtest
every later grid subtest in the same invocation contributes nothing. -/
theorem grid_first_only_c6 : ∀ (store : Store) (st : List ColumnDescriptor × SubtestCounts)
    (data : Subtest),
    (data.prototype = "grid" → st.2.gridCount ≠ 0 → processSubtest store st data = .ok st)
    ∧ (∀ st', processSubtest store st data = .ok st' → st.2.gridCount ≤ st'.2.gridCount)
    ∧ (∀ st', data.prototype = "grid" → st.2.gridCount = 0 →
        processSubtest store st data = .ok st' → st'.2.gridCount = 1)
    ∧ (∀ (rest : List Subtest) (st₀ st₁ : List ColumnDescriptor × SubtestCounts),
        processSubtests store rest st₀ = .ok st₁ → st₀.2.gridCount ≤ st₁.2.gridCount) := by
  intro store st data
  refine ⟨?_, ?_, ?_, ?_⟩
  · intro hp hg
    obtain ⟨cols, c⟩ := st
    dsimp only at hg
    unfold processSubtest
    dsimp only
    rw [hp]
    simp [hg]
  · intro st' h
    exact processSubtest_gridCount_mono store st data st' h
  · intro st' hp hg h
    obtain ⟨cols, c⟩ := st
    obtain ⟨cols', c'⟩ := st'
    dsimp only at hg
    unfold processSubtest at h
    dsimp only at h
    rw [hp, hg] at h
    simp only [String.reduceBEq, Bool.false_eq_true, if_false, beq_self_eq_true,
      Bool.and_self, if_true, reduceIte] at h
    split at h
    · simp at h
    next grid hgr =>
      injection h with h'
      injection h' with h₁ h₂
      subst h₂
      simp
  · intro rest st₀ st₁ h
    exact processSubtests_gridCount_mono store rest st₀ st₁ h

theorem grid_first_only_c6_witness :
    processSubtest failStore ([], ⟨0, 0, 0, 0, 0, 0, 0, 1, 0⟩) { prototype := "grid" }
      = .ok ([], ⟨0, 0, 0, 0, 0, 0, 0, 1, 0⟩) :=
  (grid_first_only_c6 failStore ([], ⟨0, 0, 0, 0, 0, 0, 0, 1, 0⟩)
    { prototype := "grid" }).1 rfl (by decide)

/-- Inserting a question into a list keeps the filtered subsequence of every
`order` class: the inserted question lands in front of its own class and the
other classes are untouched. -/
theorem filter_orderedInsert : ∀ (a : Question) (l : List Question) (o : Int),
    (List.orderedInsert (fun x y => x.order ≤ y.order) a l).filter (fun q => q.order == o)
      = if (a.order == o) = true
        then a :: l.filter (fun q => q.order == o)
        else l.filter (fun q => q.order == o) := by
  intro a l o
  induction l with
  | nil =>
    cases h : a.order == o <;> simp [List.orderedInsert, List.filter, h]
  | cons b t ih =>
    unfold List.orderedInsert
    split
    next hab =>
      rw [List.filter_cons]
    next hab =>
      rw [List.filter_cons, ih, List.filter_cons]
      by_cases hao : (a.order == o) = true
      · have hb : b.order < a.order := Int.not_le.mp hab
        have hao' : a.order = o := by simpa using hao
        have hbo : (b.order == o) = false := by
          simp only [beq_eq_false_iff_ne]
          omega
        simp [hao, hbo]
      · simp only [Bool.not_eq_true] at hao
        simp [hao]

/-- The survey sort keeps the store's relative order inside every class of
equal `order` values: it is stable. -/
theorem filter_sortQuestions : ∀ (qs : List Question) (o : Int),
    (sortQuestions qs).filter (fun q => q.order == o) = qs.filter (fun q => q.order == o) := by
  intro qs o
  induction qs with
  | nil => rfl
  | cons a t ih =>
    show (List.insertionSort _ (a :: t)).filter _ = _
    rw [List.insertionSort, filter_orderedInsert]
    show _ = List.filter _ (a :: t)
    rw [List.filter_cons]
    by_cases hao : (a.order == o) = true
    · simp only [hao, if_true]
      exact congrArg (a :: ·) ih
    · simp only [Bool.not_eq_true] at hao
      simp only [hao, Bool.false_eq_true, if_false]
      exact ih

/-- C4: `createSurvey` emits the question blocks of the store's questions in
ascending `order`: its output is the flat map of the per-question blocks
over the sorted question list followed by the timestamp column, where the
sorted list is ordered by `order`, is a permutation of the store's list, and
keeps the store's relative order inside every equal-`order` class. -/
theorem survey_question_order_c4 : ∀ (store : Store) (id : String) (c : SubtestCounts)
    (qs : List Question),
    store.getQuestionBySubtestId id = .ok qs →
    createSurvey id c store = .ok
      ((sortQuestions qs).flatMap (surveyQuestionCols id (countSuffix c.surveyCount))
        ++ [tsCol id c.timestampCount])
    ∧ List.Sorted (fun a b : Question => a.order ≤ b.order) (sortQuestions qs)
    ∧ (sortQuestions qs).Perm qs
    ∧ ∀ o : Int, (sortQuestions qs).filter (fun q => q.order == o)
        = qs.filter (fun q => q.order == o) := by
  intro store id c qs h
  refine ⟨?_, ?_, ?_, fun o => filter_sortQuestions qs o⟩
  · unfold createSurvey
    rw [h]
  · haveI ht : IsTotal Question (fun a b => a.order ≤ b.order) :=
      ⟨fun a b => Int.le_total a.order b.order⟩
    haveI htr : IsTrans Question (fun a b => a.order ≤ b.order) :=
      ⟨fun a b d h₁ h₂ => le_trans h₁ h₂⟩
    exact List.sorted_insertionSort _ _
  · exact List.perm_insertionSort _ _

theorem survey_question_order_c4_witness :
    createSurvey ("s2") initialCounts surveyStore = .ok
      ((sortQuestions [{ name := "late", order := 2, options := [] },
                       { name := "early", order := 1, options := [] }]).flatMap
          (surveyQuestionCols ("s2") (countSuffix initialCounts.surveyCount))
        ++ [tsCol ("s2") initialCounts.timestampCount])
    ∧ List.Sorted (fun a b : Question => a.order ≤ b.order)
        (sortQuestions [{ name := "late", order := 2, options := [] },
                        { name := "early", order := 1, options := [] }])
    ∧ (sortQuestions [{ name := "late", order := 2, options := [] },
                      { name := "early", order := 1, options := [] }]).Perm
        [{ name := "late", order := 2, options := [] },
         { name := "early", order := 1, options := [] }]
    ∧ ∀ o : Int,
        (sortQuestions [{ name := "late", order := 2, options := [] },
                        { name := "early", order := 1, options := [] }]).filter
            (fun q => q.order == o)
          = ([{ name := "late", order := 2, options := [] },
              { name := "early", order := 1, options := [] }] : List Question).filter
              (fun q => q.order == o) :=
  survey_question_order_c4 surveyStore ("s2") initialCounts
    [{ name := "late", order := 2, options := [] },
     { name := "early", order := 1, options := [] }] (by rfl)

/-- Closed form of the grid loop: the entry at position `k` contributes its
block with the local occurrence counter advanced to `count + k` and the
timestamp number `ts + k`, and the returned counter is the initial one plus
the number of entries. -/
theorem createGridAux_closed : ∀ (entries : List GridEntry) (count ts : Nat),
    createGridAux entries count ts =
      (((entries.zip (List.range entries.length)).flatMap fun p =>
          gridEntryBlock p.1 (count + p.2) (ts + p.2)),
       ts + entries.length) := by
  intro entries
  induction entries with
  | nil =>
    intro count ts
    simp [createGridAux]
  | cons sub rest ih =>
    intro count ts
    show (gridEntryBlock sub count ts ++ (createGridAux rest (count + 1) (ts + 1)).1,
          (createGridAux rest (count + 1) (ts + 1)).2) = _
    rw [ih (count + 1) (ts + 1)]
    simp only [List.length_cons, List.range_succ_eq_map, List.zip_cons_cons, List.flatMap_cons,
      List.zip_map_right, List.flatMap_map, Nat.add_zero, Prod.map_fst, Prod.map_snd, id_eq,
      Nat.succ_eq_add_one, Prod.mk.injEq]
    constructor
    · have hfun : (fun p : GridEntry × Nat =>
          gridEntryBlock p.1 (count + (p.2 + 1)) (ts + (p.2 + 1)))
          = fun p : GridEntry × Nat => gridEntryBlock p.1 (count + 1 + p.2) (ts + 1 + p.2) := by
        funext p
        rw [show count + (p.2 + 1) = count + 1 + p.2 by omega,
            show ts + (p.2 + 1) = ts + 1 + p.2 by omega]
      rw [hfun]
    · omega

/-- C5: `createGrid` gathers, in store order, the grid-prototype entries of
every historical result for `doc.assessmentId || doc.curriculumId`, emits
per entry its block (six fixed variable columns suffixed by the locally
incrementing counter starting at `gridCount`, one column per item, then the
timestamp column numbered from the shared counter), and returns the columns
together with the final `timestampCount`. -/
theorem grid_generation_c5 : ∀ (doc : Subtest) (c : SubtestCounts) (store : Store)
    (resultDocs : List ResultRow),
    store.getResults (jsOrOpt doc.assessmentId doc.curriculumId) = .ok resultDocs →
    createGrid doc c store =
      (let gridData := resultDocs.flatMap fun item =>
         item.doc.subtestData.filter fun value => value.prototype == "grid"
       .ok (((gridData.zip (List.range gridData.length)).flatMap fun p =>
              gridEntryBlock p.1 (c.gridCount + p.2) (c.timestampCount + p.2)),
            c.timestampCount + gridData.length)) := by
  intro doc c store resultDocs h
  unfold createGrid
  rw [h]
  dsimp only
  rw [createGridAux_closed]

theorem grid_generation_c5_witness :
    createGrid { prototype := "grid", assessmentId := some ("g1") } initialCounts gridStore
      = .ok
        ([⟨"lg_auto_stop", "sub1.lg_auto_stop"⟩,
          ⟨"lg_time_remain", "sub1.lg_time_remain"⟩,
          ⟨"lg_capture_item_at_time", "sub1.lg_capture_item_at_time"⟩,
          ⟨"lg_attempted", "sub1.lg_attempted"⟩,
          ⟨"lg_time_intermediate_captured", "sub1.lg_time_intermediate_captured"⟩,
          ⟨"lg_time_allowed", "sub1.lg_time_allowed"⟩,
          ⟨"lg_a", "sub1.lg_a"⟩,
          ⟨"timestamp_0", "sub1.timestamp_0"⟩,
          ⟨"word_grid_auto_stop_1", "sub3.word_grid_auto_stop_1"⟩,
          ⟨"word_grid_time_remain_1", "sub3.word_grid_time_remain_1"⟩,
          ⟨"word_grid_capture_item_at_time_1", "sub3.word_grid_capture_item_at_time_1"⟩,
          ⟨"word_grid_attempted_1", "sub3.word_grid_attempted_1"⟩,
          ⟨"word_grid_time_intermediate_captured_1", "sub3.word_grid_time_intermediate_captured_1"⟩,
          ⟨"word_grid_time_allowed_1", "sub3.word_grid_time_allowed_1"⟩,
          ⟨"timestamp_1", "sub3.timestamp_1"⟩], 2) := by
  have h := grid_generation_c5 { prototype := "grid", assessmentId := some ("g1") }
    initialCounts gridStore
    [⟨⟨[{ prototype := "grid", name := "Letter Grid", subtestId := "sub1",
          data := { variable_name := some ("lg"), items := [⟨"a"⟩] } },
        { prototype := "survey", subtestId := "sub2" },
        { prototype := "grid", name := "Word Grid", subtestId := "sub3",
          data := { variable_name := none, items := [] } }]⟩⟩] (by rfl)
  rw [h]
  decide
